import Mathlib

/-!
Verification development for the telegram_mml repository: a shallow
embedding, in Lean 4, of the referral-commission ledger, webhook
dispatch, membership-mirror refresh and configuration code, together
with theorems settling the specification claims about them.

Conventions of the embedding:
* MongoDB ObjectIds are modelled as natural numbers.
* JavaScript values that may be undefined are modelled as Option.
* JavaScript string falsiness (undefined, null or the empty string all
  count as falsy) is made explicit by jsFalsyStr.
* Money amounts are kept as the decimal strings the code stores.
* The MongoDB aggregation operator toDouble converts a decimal string
  to an IEEE-754 double; on the integer strings used for amounts this
  is modelled exactly by rounding the integer to 53 significant bits,
  round-to-nearest, ties-to-even (ieeeRound53).  Additions of the
  resulting values are modelled exactly (sums below 2 to the 53 are
  exact in doubles; the counterexamples below use single entries, where
  no addition occurs).
* The MongoDB sum accumulator ignores non-numeric values such as
  strings (it contributes 0 for them) and the avg accumulator yields
  null when no numeric value is seen; both behaviours are modelled
  where the code applies them to the string-typed amount field.
-/

deriving instance DecidableEq for Except

namespace TelegramMML

/-- JS string falsiness for an optional string: undefined/null or the
empty string are falsy. -/
def jsFalsyStr : Option String → Bool
  | none => true
  | some s => s.data.isEmpty

/-- JS expression a OR d on an optional string a with default d:
returns d when a is falsy (undefined or empty), a otherwise. -/
def jsOrStr (a : Option String) (d : String) : String :=
  match a with
  | none => d
  | some s => if s.data.isEmpty then d else s

/-- JS String.toLowerCase restricted to ASCII, as used on wallet
addresses: lowercase each character. -/
def jsToLower (s : String) : String :=
  String.mk (s.data.map Char.toLower)

/-- Number of binary digits of n, written with an explicit fuel so it
reduces inside the kernel; the first argument only bounds the
recursion depth. -/
def bitLenAux : Nat → Nat → Nat
  | 0, _ => 0
  | fuel + 1, n => if n == 0 then 0 else bitLenAux fuel (n / 2) + 1

/-- Number of binary digits of n (0 for 0). -/
def bitLen (n : Nat) : Nat :=
  bitLenAux n n

/-- Rounding of a natural number to the nearest IEEE-754 double
(53 significant bits, round to nearest, ties to even).  Numbers below
2 to the 53 are represented exactly. -/
def ieeeRound53 (n : Nat) : Nat :=
  if n < 2 ^ 53 then n
  else
    let k := bitLen n - 53
    let d := 2 ^ k
    let q := n / d
    let r := n % d
    if r * 2 < d then q * d
    else if r * 2 > d then (q + 1) * d
    else if q % 2 = 0 then q * d else (q + 1) * d

/-- Parse a decimal natural number from a list of characters,
accumulator style (none on a non-digit). -/
def parseDecDigits : Nat → List Char → Option Nat
  | acc, [] => some acc
  | acc, c :: cs =>
    let d := c.toNat
    if 48 ≤ d && d ≤ 57 then parseDecDigits (acc * 10 + (d - 48)) cs else none

/-- Parse a decimal integer string: digits only, nonempty.  This is the
numeric reading shared by the aggregation conversions on the integer
amount strings of this code base. -/
def parseNatString (s : String) : Option Nat :=
  if s.data.isEmpty then none else parseDecDigits 0 s.data

/-- MongoDB toDouble applied to the decimal integer strings the code
stores for amounts: parse the integer and round it to the nearest
double.  A non-numeric string makes the whole aggregation fail, hence
the Option result (none models the aggregation error). -/
def mongoToDouble (s : String) : Option Nat :=
  (parseNatString s).map ieeeRound53

/-- Status enum of the referral (commission entry) schema,
src/models/Referral.js. -/
inductive RStatus
  | pending
  | completed
  | failed
deriving DecidableEq, Repr

/-- A Referral document, from the schema in src/models/Referral.js.
Fields not touched by the verified code paths (notes, paidAt, isActive)
are omitted; createdAt is the timestamps field used by date filters. -/
structure Referral where
  referrer : Nat
  referee : Nat
  planLevel : Nat
  amount : String
  transactionHash : Option String
  blockNumber : Option Nat
  status : RStatus
  commissionRate : Nat
  cycleNumber : Nat
  createdAt : Nat
deriving DecidableEq, Repr

/-- The fields a caller may pass to the Referral constructor; absent
fields get the schema defaults. -/
structure ReferralInput where
  referrer : Nat
  referee : Nat
  planLevel : Nat
  amount : Option String := none
  transactionHash : Option String := none
  blockNumber : Option Nat := none
  status : Option RStatus := none
  commissionRate : Option Nat := none
  cycleNumber : Option Nat := none
deriving Repr

/-- Mongoose document construction: schema defaults are applied to the
paths the caller left undefined (amount 0, status pending,
commissionRate 60, cycleNumber 1), as declared in the schema in
src/models/Referral.js.  createdAt is the creation timestamp. -/
def Referral.build (i : ReferralInput) (now : Nat) : Referral :=
  { referrer := i.referrer
    referee := i.referee
    planLevel := i.planLevel
    amount := i.amount.getD "0"
    transactionHash := i.transactionHash
    blockNumber := i.blockNumber
    status := i.status.getD .pending
    commissionRate := i.commissionRate.getD 60
    cycleNumber := i.cycleNumber.getD 1
    createdAt := now }

/-- The tier table written inside the pre-save hook of
src/models/Referral.js: planLevel up to 4 gives 50, up to 8 gives 55,
up to 12 gives 60, above gives 60. -/
def tierRate (planLevel : Nat) : Nat :=
  if planLevel ≤ 4 then 50
  else if planLevel ≤ 8 then 55
  else if planLevel ≤ 12 then 60
  else 60

/-- The pre-save hook of src/models/Referral.js.  For a new document
whose commissionRate is falsy (for a number: zero), it sets the rate
from the tier table.  Note that the schema default 60 has already been
applied by document construction, so a document built without an
explicit rate reaches this hook with commissionRate 60, which is
truthy.  (The hook also coerces a numeric amount to a string; amounts
are already strings in this embedding.) -/
def referralPreSave (isNew : Bool) (r : Referral) : Referral :=
  if isNew && r.commissionRate == 0 then
    { r with commissionRate := tierRate r.planLevel }
  else r

/-- A User document, from src/models/User.js.  referralCode and
walletAddress and referredBy may be absent. -/
structure User where
  id : Nat
  telegramId : String
  firstName : String
  walletAddress : Option String
  referralCode : Option String
  referredBy : Option Nat
deriving DecidableEq, Repr

/-- The referral-code generator of src/models/User.js: the hex MD5
digest of telegramId concatenated with the current time, truncated to
its first 8 characters.  The digest computation is supplied as the
argument digest (a 32-character hex string produced by the crypto
library); the function keeps its first 8 characters. -/
def generateReferralCode (digest : String) : String :=
  String.mk (digest.data.take 8)

/-- The pre-save hook of src/models/User.js: when referralCode is
falsy, generate one; an already-present code is left untouched. -/
def userPreSave (digest : String) (u : User) : User :=
  if jsFalsyStr u.referralCode then
    { u with referralCode := some (generateReferralCode digest) }
  else u

/-- The off-chain store visible to the verified code: the users and
referrals collections. -/
structure DB where
  users : List User
  referrals : List Referral
deriving DecidableEq, Repr

/-- User.findOne on telegramId (first match). -/
def findUserByTelegramId (db : DB) (tid : String) : Option User :=
  db.users.find? (fun u => u.telegramId == tid)

/-- User.findOne on referralCode (first match). -/
def findUserByReferralCode (db : DB) (code : String) : Option User :=
  db.users.find? (fun u => u.referralCode == some code)

/-- User.findOne on walletAddress (first match); the callers lowercase
the query value before the lookup. -/
def findUserByWallet (db : DB) (addr : String) : Option User :=
  db.users.find? (fun u => u.walletAddress == some addr)

/-- The unique-index check performed by the users collection on the
insert of u: no existing document may share its telegramId or its
referralCode (both are declared unique, non-sparse, in
src/models/User.js; MongoDB indexes the null of an absent code, so a
duplicate absent code conflicts as well). -/
def userSaveOk (users : List User) (u : User) : Bool :=
  users.all (fun v =>
    v.telegramId != u.telegramId && v.referralCode != u.referralCode)

/-- Mongoose save of a newly constructed User document (the creation
paths of the bot /start handler and of the auth middleware, the only
user saves this development models): run the pre-save hook, then
insert, subject to the unique indexes; none models the save throwing a
duplicate-key error. -/
def saveUser (db : DB) (digest : String) (u : User) : Option DB :=
  if userSaveOk db.users (userPreSave digest u) then
    some { db with users := db.users ++ [userPreSave digest u] }
  else none

/-- The unique sparse index on Referral.transactionHash
(src/models/Referral.js): uniqueness is enforced only when the hash is
present. -/
def referralSaveOk (referrals : List Referral) (r : Referral) : Bool :=
  match r.transactionHash with
  | none => true
  | some h => referrals.all (fun x => x.transactionHash != some h)

/-- Mongoose save on a new Referral document: run the pre-save hook,
then insert, subject to the unique sparse index on transactionHash;
none models the save throwing a duplicate-key error. -/
def saveReferral (db : DB) (r : Referral) : Option DB :=
  let r2 := referralPreSave true r
  if referralSaveOk db.referrals r2 then
    some { db with referrals := db.referrals ++ [r2] }
  else none

/-- trackReferral of src/controllers/referralController.js: build a
Referral from referrer, referee, planLevel and amount with status
completed — the transactionHash known to its caller is not passed and
therefore not stored — and save it.  The follow-up findByIdAndUpdate
increments totalReferrals, a path that does not exist in the user
schema of src/models/User.js, so under the default mongoose strict
mode the update is stripped and the users collection is unchanged.
none models the thrown error path. -/
def trackReferral (db : DB) (referrerUserId refereeUserId planId : Nat)
    (amount : String) (now : Nat) : Option DB :=
  let r := Referral.build
    { referrer := referrerUserId
      referee := refereeUserId
      planLevel := planId
      amount := some amount
      status := some .completed } now
  saveReferral db r

/-- The request body of processReferralCommission; absent fields are
none.  planId is carried as a number by the callers. -/
structure CommissionBody where
  referrerAddress : Option String
  refereeAddress : Option String
  amount : Option String
  planId : Option Nat
  transactionHash : Option String
deriving Repr

/-- JS falsiness of the optional numeric planId (undefined or 0). -/
def jsFalsyNat : Option Nat → Bool
  | none => true
  | some n => n == 0

/-- processReferralCommission of src/controllers/referralController.js:
after the presence check on the five body fields, look both users up by
lowercased wallet address, 404 when either is missing, otherwise call
trackReferral and answer 200; a thrown error yields 500 with the store
unchanged.  The notification block only formats and sends a message and
does not touch the store.  Returns the HTTP status and the store. -/
def processReferralCommission (db : DB) (b : CommissionBody) (now : Nat) :
    Nat × DB :=
  if jsFalsyStr b.referrerAddress || jsFalsyStr b.refereeAddress ||
      jsFalsyStr b.amount || jsFalsyNat b.planId || jsFalsyStr b.transactionHash then
    (400, db)
  else
    match findUserByWallet db (jsToLower (b.referrerAddress.getD "")),
          findUserByWallet db (jsToLower (b.refereeAddress.getD "")) with
    | some referrer, some referee =>
      match trackReferral db referrer.id referee.id (b.planId.getD 0) (b.amount.getD "") now with
      | some db2 => (200, db2)
      | none => (500, db)
    | _, _ => (404, db)

/-- The referral start parameter test of the /start handler: when the
parameter begins with ref the tag is stripped (startsWith followed by
the removal of the first occurrence, which under the startsWith guard
is the leading one), otherwise no referral code is present. -/
def stripRefTag (s : String) : Option String :=
  match s.data with
  | 'r' :: 'e' :: 'f' :: '_' :: rest => some (String.mk rest)
  | _ => none

/-- The user document constructed by the /start command handler of the
Telegram bot service (src/services/telegramBotService.js) when no user
with this telegramId exists yet: only here, when the start parameter
carries a ref tag whose referral code resolves to a referrer, is
referredBy set.  newId is the ObjectId minted for the insert. -/
def newUserFromStart (db : DB) (newId : Nat) (telegramId firstName startParam : String) : User :=
  { id := newId
    telegramId := telegramId
    firstName := firstName
    walletAddress := none
    referralCode := none
    referredBy :=
      match stripRefTag startParam with
      | some code => (findUserByReferralCode db code).map (fun r => r.id)
      | none => none }

/-- The /start command handler of the Telegram bot service
(src/services/telegramBotService.js).  An existing user (found by
telegramId) is only greeted: no field of any stored user is written.
Only when no user exists is one constructed (newUserFromStart) and
saved; digest feeds the referral-code generator of the user pre-save
hook.  A thrown save error is caught and only reported, leaving the
store unchanged. -/
def startHandler (db : DB) (newId : Nat) (digest : String)
    (telegramId firstName : String) (startParam : String) : DB :=
  match findUserByTelegramId db telegramId with
  | some _ => db
  | none =>
    match saveUser db digest (newUserFromStart db newId telegramId firstName startParam) with
    | some db2 => db2
    | none => db

/-- The record logged by storeFailedWebhook of
src/services/eventListener.js: the endpoint, the error text and a
retryCount that is always written as 0.  Nothing in the repository ever
reads these records back or retries them; storeFailedWebhook only
prints the record (its body says storage could be implemented). -/
structure FailedWebhook where
  endpoint : String
  error : String
  retryCount : Nat
deriving DecidableEq, Repr

/-- The state the event listener accumulates across webhook pushes:
the failed-webhook records it has produced. -/
structure ListenerState where
  failedWebhooks : List FailedWebhook
deriving DecidableEq, Repr

/-- triggerWebhook of src/services/eventListener.js.  The body performs
a single fetch — there is no loop, no attempt counter, no nextAttemptAt
and no backoff computation anywhere in the function or its callers.  A
non-2xx response or a thrown network error both land in the catch
block, which calls storeFailedWebhook once with retryCount 0.
respondOk abstracts the one observed outcome of the one fetch; the
returned number counts the fetch calls the body executes. -/
def triggerWebhook (st : ListenerState) (endpoint : String) (respondOk : Bool)
    (errText : String) : ListenerState × Nat :=
  if respondOk then (st, 1)
  else
    ({ st with failedWebhooks :=
        st.failedWebhooks ++ [{ endpoint := endpoint, error := errText, retryCount := 0 }] },
     1)

/-- A Membership document, the off-chain mirror of on-chain member
state (src/models/Membership.js); id models the document ObjectId. -/
structure Membership where
  id : Nat
  user : Nat
  walletAddress : String
  planId : Nat
  planName : String
  cycleNumber : Nat
  totalEarnings : String
  totalReferrals : Nat
  isActive : Bool
deriving DecidableEq, Repr

/-- The member record returned by web3Service.getMemberInfo: the
contract fields, each serialized with toString by the service.  The
callers re-parse totalReferrals, planId and cycleNumber with parseInt
(the identity on the decimal string of a natural number, so those
fields are kept as naturals here) and copy totalEarnings verbatim as
a string. -/
structure MemberInfo where
  totalEarnings : String
  totalReferrals : Nat
  planId : Nat
  cycleNumber : Nat
deriving DecidableEq, Repr

/-- Membership.findOne on walletAddress with isActive true (first
match). -/
def findActiveMembership (ms : List Membership) (w : String) : Option Membership :=
  ms.find? (fun m => m.walletAddress == w && m.isActive)

/-- Mongoose save of an updated Membership document: replace the
document with the same id. -/
def saveMembership (ms : List Membership) (m : Membership) : List Membership :=
  ms.map (fun x => if x.id == m.id then m else x)

/-- The rendered outcome of the dashboard page handler. -/
inductive DashOutcome
  | redirectConnect
  | redirectPlans
  | rendered
  | errorPage
deriving DecidableEq, Repr

/-- showDashboard of src/controllers/membershipController.js.  wallet
is the authenticated user's wallet (absent means redirect to connect);
chain is the outcome of the getMemberInfo read (error models a thrown
RPC failure, ok none a member with zero token balance); sysOk is the
outcome of the later getSystemStats read.  Only when the chain read
succeeds with data are totalEarnings, totalReferrals and planId copied
onto the mirror document and saved; a thrown chain read reaches the
catch block before any write. -/
def showDashboard (ms : List Membership) (wallet : Option String)
    (chain : Except String (Option MemberInfo)) (sysOk : Bool) :
    DashOutcome × List Membership :=
  match wallet with
  | none => (.redirectConnect, ms)
  | some w =>
    match findActiveMembership ms w with
    | none => (.redirectPlans, ms)
    | some m =>
      match chain with
      | .error _ => (.errorPage, ms)
      | .ok od =>
        let ms2 :=
          match od with
          | none => ms
          | some d => saveMembership ms
              { m with totalEarnings := d.totalEarnings
                       totalReferrals := d.totalReferrals
                       planId := d.planId }
        if sysOk then (.rendered, ms2) else (.errorPage, ms2)

/-- The membership refresh endpoint (src/routes/api.js, POST
/membership/refresh; the same handler appears in the membership
router).  Returns the HTTP status and the mirror.  A thrown chain read
is caught with a 500 before any write; a null chain result skips the
update; otherwise the four mirrored fields are overwritten from the
chain data and saved. -/
def refreshMembership (ms : List Membership) (wallet : Option String)
    (chain : Except String (Option MemberInfo)) : Nat × List Membership :=
  match wallet with
  | none => (401, ms)
  | some w =>
    match chain with
    | .error _ => (500, ms)
    | .ok none => (200, ms)
    | .ok (some d) =>
      match findActiveMembership ms (jsToLower w) with
      | none => (200, ms)
      | some m =>
        (200, saveMembership ms
          { m with totalEarnings := d.totalEarnings
                   totalReferrals := d.totalReferrals
                   planId := d.planId
                   cycleNumber := d.cycleNumber })

/-- The environment variables consumed by the configuration and
webhook-authentication code; absent variables are none. -/
structure Env where
  rpcUrl : Option String
  contractAddress : Option String
  usdtAddress : Option String
  webhookSecret : Option String
deriving Repr

/-- A lowercase hexadecimal digit. -/
def isHexChar (c : Char) : Bool :=
  c.isDigit || (('a' ≤ c) && (c ≤ 'f'))

/-- ethers isAddress as exercised by the configuration code: a 0x
prefix followed by 40 hex digits.  The checksum validation that ethers
additionally applies to mixed-case inputs is not modelled; every
address in this development is lowercase, where ethers accepts exactly
this shape. -/
def isHexAddress (s : String) : Bool :=
  match s.data with
  | '0' :: 'x' :: rest => rest.length == 40 && rest.all isHexChar
  | _ => false

/-- validateConfig of src/config/web3.js, run from the constructor at
module load: it throws (error) when RPC_URL, CONTRACT_ADDRESS or
USDT_CONTRACT_ADDRESS is falsy or when either address is malformed.
It performs no check of the webhook secret. -/
def validateConfig (e : Env) : Except String Unit :=
  if jsFalsyStr e.rpcUrl then .error "RPC_URL is required"
  else if jsFalsyStr e.contractAddress then .error "CONTRACT_ADDRESS is required"
  else if jsFalsyStr e.usdtAddress then .error "USDT_CONTRACT_ADDRESS is required"
  else if !isHexAddress (e.contractAddress.getD "") then .error "Invalid CONTRACT_ADDRESS format"
  else if !isHexAddress (e.usdtAddress.getD "") then .error "Invalid USDT_CONTRACT_ADDRESS format"
  else .ok ()

/-- The token the webhook authentication middleware of
src/routes/webhook.js compares against: WEBHOOK_SECRET when set and
non-empty, otherwise the literal fallback written in the source. -/
def expectedWebhookToken (e : Env) : String :=
  jsOrStr e.webhookSecret "your-secret-token"

/-- authenticateWebhook of src/routes/webhook.js: the request passes
exactly when its Authorization header equals Bearer followed by the
expected token. -/
def authenticateWebhook (e : Env) (authHeader : Option String) : Bool :=
  authHeader == some ("Bearer " ++ expectedWebhookToken e)

/-- A Telegram notification dispatched by a webhook route: the
recipient chat and which notify helper produced it. -/
structure Notification where
  telegramId : String
  kind : String
deriving DecidableEq, Repr

/-- The POST /member-registered route of src/routes/webhook.js.
After authentication, both wallet addresses are lowercased and looked
up; only when both users exist is the plan fetched and the upline
notified.  A missing address field makes toLowerCase throw (caught as
500); a thrown plan lookup is also caught as 500.  In every case the
route performs no write: it returns the HTTP status, the success flag
of the JSON body, and the notifications sent. -/
def memberRegisteredRoute (e : Env) (db : DB) (authHeader : Option String)
    (memberAddress uplineAddress : Option String) (planInfoOk : Bool) :
    Nat × Bool × List Notification :=
  if !authenticateWebhook e authHeader then (401, false, [])
  else
    match memberAddress, uplineAddress with
    | some ma, some ua =>
      match findUserByWallet db (jsToLower ma), findUserByWallet db (jsToLower ua) with
      | some _, some upline =>
        if planInfoOk then
          (200, true, [{ telegramId := upline.telegramId, kind := "newReferral" }])
        else (500, false, [])
      | _, _ => (200, true, [])
    | _, _ => (500, false, [])

/-- The POST /commission-paid route of src/routes/webhook.js, with the
same structure over recipientAddress and fromAddress: unknown wallets
are acknowledged with 200 success and nothing is sent or written. -/
def commissionPaidRoute (e : Env) (db : DB) (authHeader : Option String)
    (recipientAddress fromAddress : Option String) (planInfoOk : Bool) :
    Nat × Bool × List Notification :=
  if !authenticateWebhook e authHeader then (401, false, [])
  else
    match recipientAddress, fromAddress with
    | some ra, some fa =>
      match findUserByWallet db (jsToLower ra), findUserByWallet db (jsToLower fa) with
      | some recipient, some _ =>
        if planInfoOk then
          (200, true, [{ telegramId := recipient.telegramId, kind := "commissionReceived" }])
        else (500, false, [])
      | _, _ => (200, true, [])
    | _, _ => (500, false, [])

/-- Sum of toDouble conversions, as accumulated by the aggregation of
getEarningsStats: each string amount is converted to a double (error
aborts the command); the additions themselves are modelled exactly
(below 2 to the 53 double addition is exact, and the counterexamples
use single entries). -/
def toDoubleSum (l : List String) : Except String Nat :=
  l.foldlM (fun acc s =>
    match mongoToDouble s with
    | some v => .ok (acc + v)
    | none => .error "Failed to parse number in $convert") 0

/-- The match predicate of Referral.getEarningsStats
(src/models/Referral.js): the given referrer, status completed, and
when a date range is supplied a createdAt between its bounds. -/
def earningsMatch (referrerId : Nat) (range : Option (Nat × Nat)) (r : Referral) : Bool :=
  r.referrer == referrerId && r.status == .completed &&
    (match range with
     | none => true
     | some (s, e) => decide (s ≤ r.createdAt) && decide (r.createdAt ≤ e))

/-- The single group row produced by getEarningsStats.  averageEarning
and the two divided display copies added by the final addFields stage
are derived from these fields and carry no further information about
which entries were aggregated, so they are not repeated here. -/
structure EarningsStats where
  totalEarnings : Nat
  totalReferrals : Nat
  planDistribution : List Nat
deriving DecidableEq, Repr

/-- Referral.getEarningsStats of src/models/Referral.js: match on
referrer, completed status and the optional date range, then group
everything into one row of sums and counts; none models the empty
aggregation result when nothing matches, error a failed toDouble. -/
def getEarningsStats (rs : List Referral) (referrerId : Nat)
    (range : Option (Nat × Nat)) : Except String (Option EarningsStats) := do
  let docs := rs.filter (earningsMatch referrerId range)
  if docs.isEmpty then
    return none
  else
    let total ← toDoubleSum (docs.map (fun r => r.amount))
    return some
      { totalEarnings := total
        totalReferrals := docs.length
        planDistribution := docs.map (fun r => r.planLevel) }

/-- A pre-join group row of Referral.getTopReferrers: money in raw
minor units (the final project stage only divides the two money fields
by 1000000 for display and joins the display name). -/
structure ReferrerRow where
  userId : Nat
  totalEarnings : Nat
  totalReferrals : Nat
deriving DecidableEq, Repr

/-- The match predicate of Referral.getTopReferrers: status completed,
and when a timeframe other than all is chosen a createdAt at or after
the computed start date (the week/month/year arithmetic on the current
date is abstracted into the optional cutoff since). -/
def topReferrersMatch (since : Option Nat) (r : Referral) : Bool :=
  r.status == .completed &&
    (match since with
     | none => true
     | some s => decide (s ≤ r.createdAt))

/-- Referral.getTopReferrers of src/models/Referral.js: match, group
by referrer with toDouble sums, sort by totalEarnings descending, take
the limit, then keep only rows whose referrer has a user document (the
unwind of the lookup drops the rest). -/
def getTopReferrers (rs : List Referral) (users : List User) (limit : Nat)
    (since : Option Nat) : Except String (List ReferrerRow) := do
  let docs := rs.filter (topReferrersMatch since)
  let rows ← (docs.map (fun r => r.referrer)).dedup.mapM (fun rid => do
    let mine := docs.filter (fun r => r.referrer == rid)
    let total ← toDoubleSum (mine.map (fun r => r.amount))
    return { userId := rid, totalEarnings := total, totalReferrals := mine.length })
  let sorted := rows.insertionSort (fun a b => b.totalEarnings ≤ a.totalEarnings)
  return (sorted.take limit).filter (fun row => (users.find? (fun u => u.id == row.userId)).isSome)

/-- A BSON value as seen by the aggregation accumulators: the amount
path holds strings, numbers only arise for genuinely numeric paths. -/
inductive BsonVal
  | num (n : Nat)
  | str (s : String)
deriving DecidableEq, Repr

/-- The MongoDB sum accumulator: non-numeric values are ignored (they
contribute nothing); with no numeric input the result is the number
0. -/
def mongoSum (l : List BsonVal) : Nat :=
  l.foldl (fun acc v =>
    match v with
    | .num n => acc + n
    | .str _ => acc) 0

/-- The MongoDB avg accumulator: non-numeric values are ignored and
with no numeric input the result is null (none).  The numeric branch
returns the truncated mean; it is unreachable for the string-typed
amount path this development applies it to. -/
def mongoAvg (l : List BsonVal) : Option Nat :=
  let nums := l.filterMap (fun v =>
    match v with
    | .num n => some n
    | .str _ => none)
  if nums.isEmpty then none else some (nums.foldl (· + ·) 0 / nums.length)

/-- A leaderboard group row of referralController.getLeaderboard:
totalEarnings is the sum accumulator applied to the string amounts and
avgEarnings the avg accumulator (null propagates unchanged through the
divide of the project stage). -/
structure LeaderRow where
  userId : Nat
  totalReferrals : Nat
  totalEarnings : Nat
  avgEarnings : Option Nat
deriving DecidableEq, Repr

/-- The aggregation pipeline of referralController.getLeaderboard
(src/controllers/referralController.js): match on the optional date
filter only — no status condition — group by referrer with sum and avg
over the string-typed amount path, sort, limit, and join users. -/
def leaderboardRows (rs : List Referral) (users : List User) (limit : Nat)
    (since : Option Nat) : List LeaderRow :=
  let docs := rs.filter (fun r =>
    match since with
    | none => true
    | some s => decide (s ≤ r.createdAt))
  let rows := (docs.map (fun r => r.referrer)).dedup.map (fun rid =>
    let mine := docs.filter (fun r => r.referrer == rid)
    { userId := rid
      totalReferrals := mine.length
      totalEarnings := mongoSum (mine.map (fun r => BsonVal.str r.amount))
      avgEarnings := mongoAvg (mine.map (fun r => BsonVal.str r.amount)) })
  let sorted := rows.insertionSort (fun a b => b.totalEarnings ≤ a.totalEarnings)
  (sorted.take limit).filter (fun row => (users.find? (fun u => u.id == row.userId)).isSome)

/-- The getLeaderboard endpoint: it post-processes each row with
toFixed on avgEarningsPerReferral; on a null avg that property access
throws, the catch answers 500 (reading the divide of a null avg as an
aggregation error gives the same 500).  Otherwise 200 with the rows. -/
def getLeaderboard (rs : List Referral) (users : List User) (limit : Nat)
    (since : Option Nat) : Nat × List LeaderRow :=
  let rows := leaderboardRows rs users limit since
  if rows.any (fun row => row.avgEarnings.isNone) then (500, [])
  else (200, rows)

/-- The webhook payload built by the ReferralPaid handler of
src/services/eventListener.js: the uint256 amount is serialized with
toString — a decimal string, no arithmetic applied. -/
structure CommissionPayload where
  recipientAddress : String
  fromAddress : String
  amount : String
  planId : String
deriving DecidableEq, Repr

/-- The ReferralPaid event handler of src/services/eventListener.js,
payload construction: addresses pass through, amount and the plan id
read from the contract are converted with toString. -/
def referralPaidPayload (fromAddr toAddr : String) (amount : Nat) (memberPlanId : Nat) :
    CommissionPayload :=
  { recipientAddress := toAddr
    fromAddress := fromAddr
    amount := toString amount
    planId := toString memberPlanId }

/-- Specification-side comparator for the drift counterexample: the
exact integer sum of the matched completed amounts, parsed with no
floating-point conversion.  This definition follows the words of the
spec (amounts summed as arbitrary-precision integers), not the code. -/
def specExactEarningsSum (rs : List Referral) (referrerId : Nat)
    (range : Option (Nat × Nat)) : Option Nat :=
  (rs.filter (earningsMatch referrerId range)).foldlM
    (fun acc r => (parseNatString r.amount).map (fun v => acc + v)) 0

/-- Pairwise distinctness of the referral codes of a user collection,
the property maintained by the unique index on referralCode. -/
def distinctReferralCodes (users : List User) : Prop :=
  users.Pairwise (fun a b => a.referralCode ≠ b.referralCode)

/-- Fixture: the referrer U1 of the replay scenario in the spec. -/
def replayReferrer : User :=
  { id := 1
    telegramId := "111"
    firstName := "U1"
    walletAddress := some "0xaaa"
    referralCode := some "aaaa1111"
    referredBy := none }

/-- Fixture: the referee U2 of the replay scenario in the spec. -/
def replayReferee : User :=
  { id := 2
    telegramId := "222"
    firstName := "U2"
    walletAddress := some "0xbbb"
    referralCode := some "bbbb2222"
    referredBy := some 1 }

/-- Fixture: the store before the replay scenario: both users known,
no commission entries. -/
def replayDB : DB :=
  { users := [replayReferrer, replayReferee], referrals := [] }

/-- Fixture: the commission webhook body of the replay scenario
(txHash 0xa, amount 5000000 minor units, planLevel 5). -/
def replayBody : CommissionBody :=
  { referrerAddress := some "0xAAA"
    refereeAddress := some "0xBBB"
    amount := some "5000000"
    planId := some 5
    transactionHash := some "0xa" }

/-- Fixture: a commission entry with status failed, for the
leaderboard aggregation. -/
def failedEntry : Referral :=
  { referrer := 1
    referee := 2
    planLevel := 5
    amount := "5000000"
    transactionHash := none
    blockNumber := none
    status := .failed
    commissionRate := 60
    cycleNumber := 1
    createdAt := 10 }

/-- Fixture: a completed commission entry whose amount, in minor
units, is one above 2 to the 53 and therefore not representable as an
IEEE-754 double. -/
def hugeEntry : Referral :=
  { referrer := 1
    referee := 2
    planLevel := 5
    amount := "9007199254740993"
    transactionHash := none
    blockNumber := none
    status := .completed
    commissionRate := 60
    cycleNumber := 1
    createdAt := 10 }

/-- Fixture: a third user, whose referral code a second assignment
attempt references. -/
def otherReferrer : User :=
  { id := 3
    telegramId := "333"
    firstName := "U3"
    walletAddress := none
    referralCode := some "cccc3333"
    referredBy := none }

/-- Fixture: a store with a referee whose edge points at U1 and a
distinct potential referrer U3. -/
def edgeDB : DB :=
  { users := [replayReferrer, replayReferee, otherReferrer], referrals := [] }

/-- Fixture: an environment with valid chain settings and no webhook
secret configured. -/
def envNoSecret : Env :=
  { rpcUrl := some "https://bsc-rpc.example"
    contractAddress := some "0xaaaaaaaaaaaaaaaaaaaaaaaaaaaaaaaaaaaaaaaa"
    usdtAddress := some "0xbbbbbbbbbbbbbbbbbbbbbbbbbbbbbbbbbbbbbbbb"
    webhookSecret := none }

/-- Fixture: an environment with a configured webhook secret. -/
def envWithSecret : Env :=
  { rpcUrl := some "https://bsc-rpc.example"
    contractAddress := some "0xaaaaaaaaaaaaaaaaaaaaaaaaaaaaaaaaaaaaaaaa"
    usdtAddress := some "0xbbbbbbbbbbbbbbbbbbbbbbbbbbbbbbbbbbbbbbbb"
    webhookSecret := some "hook-secret-1" }

/-- Fixture: a newcomer without a referral code, about to be saved for
the first time. -/
def newcomer : User :=
  { id := 5
    telegramId := "555"
    firstName := "U5"
    walletAddress := none
    referralCode := none
    referredBy := none }

/-- Fixture: a 32-character hex MD5 digest as produced by the crypto
library for the referral-code generator. -/
def sampleDigest : String :=
  "0123456789abcdef0123456789abcdef"

/-- Fixture: the store after saving the newcomer into the two-user
store — the pre-save hook has filled in the first 8 digest characters
as the referral code. -/
def dbAfterNewcomer : DB :=
  { users :=
      [replayReferrer, replayReferee,
       { id := 5
         telegramId := "555"
         firstName := "U5"
         walletAddress := none
         referralCode := some "01234567"
         referredBy := none }]
    referrals := [] }

/-- C1.  The claim says re-processing a ReferralPaid event whose
transaction hash already has a completed entry is a no-op that credits
nothing, with at most one completed entry per hash.  Evaluating the
code at the replay scenario shows the opposite: both deliveries of the
same event answer 200, the store then holds two completed commission
entries, and both entries have an absent transactionHash (trackReferral
never stores the hash required by the body, so the unique sparse index
that would enforce the no-op never applies). -/
theorem c1_replay_double_credits :
    (processReferralCommission replayDB replayBody 100).1 = 200 ∧
    (processReferralCommission
        (processReferralCommission replayDB replayBody 100).2 replayBody 200).1 = 200 ∧
    ((processReferralCommission
        (processReferralCommission replayDB replayBody 100).2 replayBody 200).2.referrals.filter
        (fun r => r.status == .completed)).length = 2 ∧
    ((processReferralCommission
        (processReferralCommission replayDB replayBody 100).2 replayBody 200).2.referrals.all
        (fun r => r.transactionHash == none)) = true := by
  decide

/-- C2.  The claim says a commission entry created without an explicit
rate stores the tier rate 50/50/55/55/60/60 for planLevels
1/4/5/8/9/16.  Evaluating the code: a new entry built without an
explicit rate receives the schema default 60 before the pre-save hook
runs, the hook's falsiness guard on the rate therefore fails, and the
stored rate is 60 for every plan level — while the hook's own tier
table, evaluated directly, yields exactly the claimed 50/50/55/55/60/60. -/
theorem c2_schema_default_shadows_tier_table :
    ([1, 4, 5, 8, 9, 16].map (fun lvl =>
        (referralPreSave true (Referral.build
          { referrer := 1, referee := 2, planLevel := lvl, amount := some "1000000" } 0)).commissionRate))
      = [60, 60, 60, 60, 60, 60] ∧
    [1, 4, 5, 8, 9, 16].map tierRate = [50, 50, 55, 55, 60, 60] := by
  decide

/-- C4 counterexample.  The claim says a delivery whose endpoint fails
on every attempt reaches Failed after exactly the configured maximum
number of attempts (8), with retries in between.  At a concrete
always-failing push the dispatch code performs exactly one attempt —
not 8 — and produces one failed-webhook record with retryCount 0; no
Failed-after-8 state exists. -/
theorem c4_single_attempt_counterexample :
    (triggerWebhook { failedWebhooks := [] } "/commission-paid" false "fetch failed").2 = 1 ∧
    (triggerWebhook { failedWebhooks := [] } "/commission-paid" false "fetch failed").2 ≠ 8 ∧
    (triggerWebhook { failedWebhooks := [] } "/commission-paid" false "fetch failed").1.failedWebhooks
      = [{ endpoint := "/commission-paid", error := "fetch failed", retryCount := 0 }] := by
  decide

/-- C4 amended.  What the dispatch code actually guarantees: every
push performs exactly one HTTP attempt; on success nothing is
recorded, on failure exactly one failed-webhook record with retryCount
0 is appended, and nothing in the repository ever reads those records
back or schedules a retry, so a failing push is attempted once and
never again. -/
theorem c4_one_attempt_then_recorded (st : ListenerState) (ep errText : String) (ok : Bool) :
    (triggerWebhook st ep ok errText).2 = 1 ∧
    (triggerWebhook st ep ok errText).1.failedWebhooks =
      (if ok then st.failedWebhooks
       else st.failedWebhooks ++ [{ endpoint := ep, error := errText, retryCount := 0 }]) := by
  cases ok <;> simp [triggerWebhook]

/-- A successful user save appends exactly the pre-save image of the
document and touches nothing else. -/
theorem saveUser_users (db : DB) (digest : String) (v : User) (db2 : DB)
    (hs : saveUser db digest v = some db2) :
    db2.users = db.users ++ [userPreSave digest v] := by
  unfold saveUser at hs
  split at hs
  · cases hs; rfl
  · cases hs

/-- C3.  The referral edge is permanent: whatever /start message
arrives — any sender, any start parameter, in particular a ref tag of
a different referrer — every user already stored, found by telegramId,
is returned unchanged afterwards, with referredBy intact: the handler
writes referredBy only on the creation of a user that did not exist. -/
theorem c3_referral_edge_permanent (db : DB) (newId : Nat)
    (digest tid fn p t0 : String) (u : User)
    (h : findUserByTelegramId db t0 = some u) :
    findUserByTelegramId (startHandler db newId digest tid fn p) t0 = some u := by
  unfold startHandler
  split
  · exact h
  · split
    · rename_i db2 hs
      have husers := saveUser_users db digest _ db2 hs
      unfold findUserByTelegramId at h ⊢
      rw [husers]
      simp [List.find?_append, h]
    · exact h

/-- C3 witness: the referee U2, whose edge points at U1, sends /start
again with the referral code of the distinct user U3; the lookup of U2
afterwards still returns the stored document, referredBy still 1. -/
theorem c3_referral_edge_permanent_witness :
    findUserByTelegramId
      (startHandler edgeDB 4 "0123456789abcdef0123456789abcdef" "222" "U2" "ref_cccc3333")
      "222" = some replayReferee :=
  c3_referral_edge_permanent edgeDB 4 "0123456789abcdef0123456789abcdef" "222" "U2"
    "ref_cccc3333" "222" replayReferee (by decide)

/-- C5.  When the on-chain read fails (getMemberInfo throws), both the
dashboard handler and the refresh endpoint leave the membership mirror
completely unchanged — no field is overwritten — the refresh answers
500, and a subsequent mirror lookup returns the pre-existing cached
document. -/
theorem c5_chain_failure_preserves_mirror (ms : List Membership)
    (w e : String) (sysOk : Bool) :
    (showDashboard ms (some w) (Except.error e) sysOk).2 = ms ∧
    (refreshMembership ms (some w) (Except.error e)).2 = ms ∧
    (refreshMembership ms (some w) (Except.error e)).1 = 500 ∧
    findActiveMembership (showDashboard ms (some w) (Except.error e) sysOk).2 w
      = findActiveMembership ms w := by
  have hd : (showDashboard ms (some w) (Except.error e) sysOk).2 = ms := by
    unfold showDashboard
    dsimp only
    rcases hfind : findActiveMembership ms w with _ | m <;> rfl
  exact ⟨hd, rfl, rfl, by rw [hd]⟩

/-- C10.  A correctly authenticated POST to /member-registered or
/commission-paid whose wallet addresses do not both resolve to stored
users answers 200 with success true, sends no notification, and — the
handlers contain no store write at all — changes no state; the sender
therefore never retries such a delivery. -/
theorem c10_unknown_wallet_acknowledged (e : Env) (db : DB) (auth : Option String)
    (ma ua ra fa : String) (pOk1 pOk2 : Bool)
    (hauth : authenticateWebhook e auth = true)
    (hm : findUserByWallet db (jsToLower ma) = none ∨ findUserByWallet db (jsToLower ua) = none)
    (hc : findUserByWallet db (jsToLower ra) = none ∨ findUserByWallet db (jsToLower fa) = none) :
    memberRegisteredRoute e db auth (some ma) (some ua) pOk1 = (200, true, []) ∧
    commissionPaidRoute e db auth (some ra) (some fa) pOk2 = (200, true, []) := by
  constructor
  · unfold memberRegisteredRoute
    rw [hauth]
    cases h1 : findUserByWallet db (jsToLower ma) <;>
      cases h2 : findUserByWallet db (jsToLower ua) <;> simp_all
  · unfold commissionPaidRoute
    rw [hauth]
    cases h1 : findUserByWallet db (jsToLower ra) <;>
      cases h2 : findUserByWallet db (jsToLower fa) <;> simp_all

/-- C10 witness: authenticated deliveries naming the unknown wallet
0xccc against the two-user store are acknowledged with 200 success and
no notification. -/
theorem c10_unknown_wallet_acknowledged_witness :
    memberRegisteredRoute envWithSecret replayDB (some "Bearer hook-secret-1")
      (some "0xccc") (some "0xaaa") true = (200, true, []) ∧
    commissionPaidRoute envWithSecret replayDB (some "Bearer hook-secret-1")
      (some "0xccc") (some "0xaaa") true = (200, true, []) :=
  c10_unknown_wallet_acknowledged envWithSecret replayDB (some "Bearer hook-secret-1")
    "0xccc" "0xaaa" "0xccc" "0xaaa" true true (by decide)
    (Or.inl (by decide)) (Or.inl (by decide))

/-- Filtering by a predicate that implies a second predicate is
unaffected by first filtering with the second. -/
theorem filter_filter_of_imp {α : Type} (p q : α → Bool) (l : List α)
    (h : ∀ a, p a = true → q a = true) :
    (l.filter q).filter p = l.filter p := by
  induction l with
  | nil => rfl
  | cons a t ih =>
    by_cases hp : p a = true
    · have hq := h a hp
      simp [List.filter_cons, hp, hq, ih]
    · by_cases hq : q a = true <;> simp [List.filter_cons, hp, hq, ih]

/-- The match stage of getEarningsStats admits only completed
entries. -/
theorem earningsMatch_completed (rid : Nat) (range : Option (Nat × Nat)) :
    ∀ r : Referral, earningsMatch rid range r = true →
      (r.status == RStatus.completed) = true := by
  intro r h
  unfold earningsMatch at h
  simp only [Bool.and_eq_true] at h
  exact h.1.2

/-- The match stage of getTopReferrers admits only completed
entries. -/
theorem topReferrersMatch_completed (since : Option Nat) :
    ∀ r : Referral, topReferrersMatch since r = true →
      (r.status == RStatus.completed) = true := by
  intro r h
  unfold topReferrersMatch at h
  simp only [Bool.and_eq_true] at h
  exact h.1

/-- C6 amended.  The aggregate queries implemented as Referral model
statics — per-user and time-windowed earnings (getEarningsStats) and
top referrers (getTopReferrers) — depend only on the completed
entries: pending and failed entries contribute nothing to them, for
every state of the collection.  The leaderboard endpoint of the
referral controller, however, matches entries of every status: a
single failed entry already yields a leaderboard row (with its string
amount contributing numeric 0 to the sum accumulator and a null
average). -/
theorem c6_statics_sum_completed_only (rs : List Referral) (users : List User)
    (rid limit : Nat) (range : Option (Nat × Nat)) (since : Option Nat) :
    getEarningsStats rs rid range
      = getEarningsStats (rs.filter (fun r => r.status == RStatus.completed)) rid range ∧
    getTopReferrers rs users limit since
      = getTopReferrers (rs.filter (fun r => r.status == RStatus.completed)) users limit since ∧
    leaderboardRows [failedEntry] [replayReferrer] 10 none
      = [{ userId := 1, totalReferrals := 1, totalEarnings := 0, avgEarnings := none }] := by
  refine ⟨?_, ?_, by decide⟩
  · unfold getEarningsStats
    rw [filter_filter_of_imp (earningsMatch rid range)
      (fun r => r.status == RStatus.completed) rs (earningsMatch_completed rid range)]
  · unfold getTopReferrers
    rw [filter_filter_of_imp (topReferrersMatch since)
      (fun r => r.status == RStatus.completed) rs (topReferrersMatch_completed since)]

/-- C6 counterexample.  The claim says every aggregate money query
sums only completed entries and that failed entries contribute nothing
to the reported output.  A store holding a single failed entry (and
its referrer user) refutes this for the leaderboard endpoint: the
pipeline produces a row, the completed-only restriction produces none,
and the endpoint itself then answers 500 because the avg accumulator
over the string-typed amounts is null. -/
theorem c6_leaderboard_includes_failed :
    leaderboardRows [failedEntry] [replayReferrer] 10 none ≠ [] ∧
    leaderboardRows ([failedEntry].filter (fun r => r.status == RStatus.completed))
      [replayReferrer] 10 none = [] ∧
    (getLeaderboard [failedEntry] [replayReferrer] 10 none).1 = 500 := by
  decide

/-- C7 counterexample.  The claim says a missing webhook shared secret
aborts startup and no component operates with a fabricated value.  In
the environment whose only omission is the webhook secret, the startup
validation succeeds (it never inspects the secret) and the webhook
authentication middleware then serves requests against the fabricated
fallback token written in the source. -/
theorem c7_missing_secret_still_serves :
    validateConfig envNoSecret = Except.ok () ∧
    authenticateWebhook envNoSecret (some "Bearer your-secret-token") = true := by
  decide

/-- C7 amended.  Startup validation fails exactly when the RPC URL,
the contract address or the USDT address is missing/empty or either
address is malformed; the webhook secret is not part of the check, and
when it is missing or empty the webhook middleware falls back to the
default token instead of aborting. -/
theorem c7_fail_fast_scope (e : Env) :
    (validateConfig e = Except.ok () ↔
      (jsFalsyStr e.rpcUrl = false ∧ jsFalsyStr e.contractAddress = false ∧
       jsFalsyStr e.usdtAddress = false ∧
       isHexAddress (e.contractAddress.getD "") = true ∧
       isHexAddress (e.usdtAddress.getD "") = true)) ∧
    expectedWebhookToken
      { rpcUrl := e.rpcUrl, contractAddress := e.contractAddress,
        usdtAddress := e.usdtAddress, webhookSecret := none } = "your-secret-token" ∧
    expectedWebhookToken
      { rpcUrl := e.rpcUrl, contractAddress := e.contractAddress,
        usdtAddress := e.usdtAddress, webhookSecret := some "" } = "your-secret-token" := by
  refine ⟨?_, rfl, rfl⟩
  unfold validateConfig
  split_ifs with h1 h2 h3 h4 h5 <;> simp_all

/-- C8 counterexample.  The claim says no computation on a money
amount is performed in floating point.  For the completed entry whose
amount is 9007199254740993 minor units (one above 2 to the 53), the
earnings aggregate converts the stored decimal string through an
IEEE-754 double and reports 9007199254740992 — the exact integer sum
of the completed amounts is 9007199254740993, so the total drifted by
the float conversion. -/
theorem c8_double_conversion_drift :
    getEarningsStats [hugeEntry] 1 none
      = Except.ok (some { totalEarnings := 9007199254740992, totalReferrals := 1,
                          planDistribution := [5] }) ∧
    specExactEarningsSum [hugeEntry] 1 none = some 9007199254740993 ∧
    (9007199254740992 : Nat) ≠ 9007199254740993 := by
  decide

/-- C8 amended.  Money amounts are carried as decimal strings of
integer minor units through event capture (the ReferralPaid payload
serializes the uint256 with toString) and ledger storage (trackReferral
stores the received string verbatim); the aggregate totals, however,
convert each stored string to an IEEE-754 double, so a reported total
can differ from the exact integer sum once amounts reach 2 to the
53. -/
theorem c8_amounts_strings_floats_in_aggregate (fa ta : String)
    (amt mpid : Nat) (db : DB) (r1 r2 pl now : Nat) (a : String) :
    (referralPaidPayload fa ta amt mpid).amount = toString amt ∧
    trackReferral db r1 r2 pl a now =
      some { db with referrals := db.referrals ++
        [Referral.build { referrer := r1, referee := r2, planLevel := pl,
                          amount := some a, status := some RStatus.completed } now] } ∧
    (Referral.build { referrer := r1, referee := r2, planLevel := pl,
                      amount := some a, status := some RStatus.completed } now).amount = a ∧
    getEarningsStats [hugeEntry] 1 none
      ≠ Except.ok (some { totalEarnings := 9007199254740993, totalReferrals := 1,
                          planDistribution := [5] }) := by
  exact ⟨rfl, rfl, rfl, by decide⟩

/-- C9.  After a save, a user whose referral code was absent or empty
carries the freshly generated code — the first 8 characters of the hex
digest, an 8-character hex string — while a user whose code was
already present keeps it verbatim; a successful save appends exactly
the pre-save image of the document; and the pairwise distinctness of
referral codes, enforced by the unique index that gates every save, is
preserved. -/
theorem c9_referral_code_invariants (digest : String) (uNew uOld : User) (c : String)
    (db db2 : DB) (v : User)
    (hlen : 8 ≤ digest.data.length)
    (hhex : digest.data.all isHexChar = true)
    (hnew : jsFalsyStr uNew.referralCode = true)
    (hold : uOld.referralCode = some c) (hc : c.data.isEmpty = false)
    (hdist : distinctReferralCodes db.users)
    (hsave : saveUser db digest v = some db2) :
    (userPreSave digest uNew).referralCode = some (generateReferralCode digest) ∧
    (generateReferralCode digest).data.length = 8 ∧
    (generateReferralCode digest).data.all isHexChar = true ∧
    userPreSave digest uOld = uOld ∧
    db2.users = db.users ++ [userPreSave digest v] ∧
    distinctReferralCodes db2.users := by
  refine ⟨?_, ?_, ?_, ?_, saveUser_users db digest v db2 hsave, ?_⟩
  · simp [userPreSave, hnew]
  · simp [generateReferralCode, List.length_take, Nat.min_eq_left hlen]
    exact hlen
  · rw [List.all_eq_true] at hhex ⊢
    intro x hx
    exact hhex x ((List.take_sublist 8 digest.data).subset hx)
  · simp [userPreSave, jsFalsyStr, hold, hc]
  · unfold saveUser at hsave
    split at hsave
    · rename_i hok
      cases hsave
      unfold distinctReferralCodes at hdist ⊢
      rw [List.pairwise_append]
      refine ⟨hdist, by simp, ?_⟩
      intro x hx y hy
      rw [List.mem_singleton] at hy
      subst hy
      unfold userSaveOk at hok
      rw [List.all_eq_true] at hok
      have hone := hok x hx
      simp only [Bool.and_eq_true, bne_iff_ne] at hone
      exact hone.2
    · cases hsave

/-- C9 witness: saving the newcomer into the two-user store with the
sample digest yields the stored code 01234567 — 8 hex characters — the
referrer with code aaaa1111 keeps it, and the three stored codes stay
pairwise distinct. -/
theorem c9_referral_code_invariants_witness :
    (userPreSave sampleDigest newcomer).referralCode
      = some (generateReferralCode sampleDigest) ∧
    (generateReferralCode sampleDigest).data.length = 8 ∧
    (generateReferralCode sampleDigest).data.all isHexChar = true ∧
    userPreSave sampleDigest replayReferrer = replayReferrer ∧
    dbAfterNewcomer.users = replayDB.users ++ [userPreSave sampleDigest newcomer] ∧
    distinctReferralCodes dbAfterNewcomer.users :=
  c9_referral_code_invariants sampleDigest newcomer replayReferrer "aaaa1111"
    replayDB dbAfterNewcomer newcomer (by decide) (by decide) (by decide)
    (by decide) (by decide)
    (by simp [distinctReferralCodes, replayDB, replayReferrer, replayReferee])
    (by decide)

end TelegramMML
